import Mathlib

/-! Verification of the canopen-rs protocol codec and SDO correlation engine.

Shallow embedding of `src/id.rs`, `src/frame/sdo.rs` and `src/frame_handler.rs`.
Rust `u8`/`u16`/`u32`/`usize` values are modelled as `Nat`, with explicit
truncation (`% 256`, masks) exactly where the Rust code converts between
widths; `Vec<u8>` and byte slices are `List Nat`; fallible constructors
return `Except Error`; the one unconditional panic point in the encoder
(a `copy_from_slice` length mismatch) is modelled as `Option.none`.
-/

/-- Error kinds from `src/error.rs`.  `src/frame/sdo.rs` refers to a variant
named `InvalidCommandSpecifier`, while the checked-in `error.rs` of this
snapshot names its SDO variant `InvalidClientCommandSpecifier`; both
constructors are included so each file can be embedded as written. -/
inductive Error where
  | invalidNodeId (raw : Nat)
  | invalidCobId (id : Nat)
  | invalidNmtCommand (byte : Nat)
  | invalidNmtState (byte : Nat)
  | invalidDataLength (length : Nat) (dataType : String)
  | invalidCommandSpecifier (value : Nat)
  | invalidClientCommandSpecifier (value : Nat)
  | canFdNotSupported
  | notImplemented
  deriving DecidableEq

/-- Node identifier wrapper, `pub struct NodeID(u8)` in `src/id.rs`. -/
structure NodeID where
  raw : Nat
  deriving DecidableEq

/-- Mirrors `NodeID::new` (`src/id.rs` lines 7-12): reject a raw id whose
high bit `0x80` is set, otherwise store the byte unchanged. -/
def NodeID.new (raw_id : Nat) : Except Error NodeID :=
  if raw_id &&& 0x80 = 0 then .ok ⟨raw_id⟩ else .error (.invalidNodeId raw_id)

/-- Mirrors `NodeID::as_raw`. -/
def NodeID.as_raw (n : NodeID) : Nat := n.raw

/-- The `CommunicationObject` enumeration of `src/id.rs`. -/
inductive CommunicationObject where
  | nmtNodeControl
  | globalFailsafeCommand
  | sync
  | emergency (node : NodeID)
  | timeStamp
  | txPDO1 (node : NodeID)
  | rxPDO1 (node : NodeID)
  | txPDO2 (node : NodeID)
  | rxPDO2 (node : NodeID)
  | txPDO3 (node : NodeID)
  | rxPDO3 (node : NodeID)
  | txPDO4 (node : NodeID)
  | rxPDO4 (node : NodeID)
  | txSDO (node : NodeID)
  | rxSDO (node : NodeID)
  | nmtNodeMonitoring (node : NodeID)
  | txLSS
  | rxLSS
  deriving DecidableEq

/-- Mirrors `CommunicationObject::raw_id_to_node_id`: `(cob_id & 0x7F) as u8`
always passes `NodeID::new`, so the `unwrap` never fires. -/
def CommunicationObject.raw_id_to_node_id (cob_id : Nat) : NodeID :=
  ⟨cob_id &&& 0x7F⟩

/-- Mirrors `CommunicationObject::new` (`src/id.rs` lines 53-88).
On `u16`, `id & !0x07FF` is `id &&& 0xF800`; the band selector mask
`0b00000111_10000000` is `0x780`. -/
def CommunicationObject.new (id : Nat) : Except Error CommunicationObject :=
  if id &&& 0xF800 = 0 then
    if id &&& 0x780 = 0x000 then
      if id = 0 then .ok .nmtNodeControl
      else if id = 1 then .ok .globalFailsafeCommand
      else .error (.invalidCobId id)
    else if id &&& 0x780 = 0x080 then
      if id &&& 0x7F = 0 then .ok .sync
      else .ok (.emergency (raw_id_to_node_id id))
    else if id &&& 0x780 = 0x100 then .ok .timeStamp
    else if id &&& 0x780 = 0x180 then .ok (.txPDO1 (raw_id_to_node_id id))
    else if id &&& 0x780 = 0x200 then .ok (.rxPDO1 (raw_id_to_node_id id))
    else if id &&& 0x780 = 0x280 then .ok (.txPDO2 (raw_id_to_node_id id))
    else if id &&& 0x780 = 0x300 then .ok (.rxPDO2 (raw_id_to_node_id id))
    else if id &&& 0x780 = 0x380 then .ok (.txPDO3 (raw_id_to_node_id id))
    else if id &&& 0x780 = 0x400 then .ok (.rxPDO3 (raw_id_to_node_id id))
    else if id &&& 0x780 = 0x480 then .ok (.txPDO4 (raw_id_to_node_id id))
    else if id &&& 0x780 = 0x500 then .ok (.rxPDO4 (raw_id_to_node_id id))
    else if id &&& 0x780 = 0x580 then .ok (.txSDO (raw_id_to_node_id id))
    else if id &&& 0x780 = 0x600 then .ok (.rxSDO (raw_id_to_node_id id))
    else if id &&& 0x780 = 0x700 then .ok (.nmtNodeMonitoring (raw_id_to_node_id id))
    else if id &&& 0x780 = 0x780 then
      if id = 0x7E4 then .ok .txLSS
      else if id = 0x7E5 then .ok .rxLSS
      else .error (.invalidCobId id)
    else .error (.invalidCobId id)
  else .error (.invalidCobId id)

/-- Mirrors `CommunicationObject::as_cob_id` (`src/id.rs` lines 90-111). -/
def CommunicationObject.as_cob_id : CommunicationObject → Nat
  | .nmtNodeControl => 0x000
  | .globalFailsafeCommand => 0x001
  | .sync => 0x080
  | .emergency node => 0x080 + node.as_raw
  | .timeStamp => 0x100
  | .txPDO1 node => 0x180 + node.as_raw
  | .rxPDO1 node => 0x200 + node.as_raw
  | .txPDO2 node => 0x280 + node.as_raw
  | .rxPDO2 node => 0x300 + node.as_raw
  | .txPDO3 node => 0x380 + node.as_raw
  | .rxPDO3 node => 0x400 + node.as_raw
  | .txPDO4 node => 0x480 + node.as_raw
  | .rxPDO4 node => 0x500 + node.as_raw
  | .txSDO node => 0x580 + node.as_raw
  | .rxSDO node => 0x600 + node.as_raw
  | .nmtNodeMonitoring node => 0x700 + node.as_raw
  | .txLSS => 0x7E4
  | .rxLSS => 0x7E5

/-- The raw byte of the node id carried by a communication object
(0 for the node-less categories); used to phrase validity hypotheses. -/
def CommunicationObject.nodeRaw : CommunicationObject → Nat
  | .emergency node => node.raw
  | .txPDO1 node => node.raw
  | .rxPDO1 node => node.raw
  | .txPDO2 node => node.raw
  | .rxPDO2 node => node.raw
  | .txPDO3 node => node.raw
  | .rxPDO3 node => node.raw
  | .txPDO4 node => node.raw
  | .rxPDO4 node => node.raw
  | .txSDO node => node.raw
  | .rxSDO node => node.raw
  | .nmtNodeMonitoring node => node.raw
  | _ => 0

/-- Whether decoding `id` and re-encoding gives back `id`
(vacuously true when `id` is rejected). -/
def cobIdRoundTrips (id : Nat) : Bool :=
  match CommunicationObject.new id with
  | .ok v => v.as_cob_id == id
  | .error _ => true

/-- Transfer direction of an SDO frame (`src/frame/sdo.rs`). -/
inductive Direction where
  | tx
  | rx
  deriving DecidableEq

/-- `ClientCommandSpecifier` of `src/frame/sdo.rs` (discriminants 0,1,2,3,5,6). -/
inductive ClientCommandSpecifier where
  | downloadSegmentRequest
  | initiateDownloadRequest
  | initiateUploadRequest
  | uploadSegmentRequest
  | blockUpload
  | blockDownload
  deriving DecidableEq

/-- The Rust enum discriminant (`*ccs as u8`). -/
def ClientCommandSpecifier.val : ClientCommandSpecifier → Nat
  | .downloadSegmentRequest => 0
  | .initiateDownloadRequest => 1
  | .initiateUploadRequest => 2
  | .uploadSegmentRequest => 3
  | .blockUpload => 5
  | .blockDownload => 6

/-- Mirrors `ClientCommandSpecifier::new`. -/
def ClientCommandSpecifier.new (value : Nat) : Except Error ClientCommandSpecifier :=
  match value with
  | 0 => .ok .downloadSegmentRequest
  | 1 => .ok .initiateDownloadRequest
  | 2 => .ok .initiateUploadRequest
  | 3 => .ok .uploadSegmentRequest
  | 5 => .ok .blockUpload
  | 6 => .ok .blockDownload
  | _ => .error (.invalidCommandSpecifier value)

/-- `ServerCommandSpecifier` of `src/frame/sdo.rs` (discriminants 0,1,2,3,5,6). -/
inductive ServerCommandSpecifier where
  | uploadSegmentResponse
  | downloadSegmentResponse
  | initiateUploadResponse
  | initiateDownloadResponse
  | blockDownload
  | blockUpload
  deriving DecidableEq

/-- The Rust enum discriminant (`*scs as u8`). -/
def ServerCommandSpecifier.val : ServerCommandSpecifier → Nat
  | .uploadSegmentResponse => 0
  | .downloadSegmentResponse => 1
  | .initiateUploadResponse => 2
  | .initiateDownloadResponse => 3
  | .blockDownload => 5
  | .blockUpload => 6

/-- Mirrors `ServerCommandSpecifier::new`. -/
def ServerCommandSpecifier.new (value : Nat) : Except Error ServerCommandSpecifier :=
  match value with
  | 0 => .ok .uploadSegmentResponse
  | 1 => .ok .downloadSegmentResponse
  | 2 => .ok .initiateUploadResponse
  | 3 => .ok .initiateDownloadResponse
  | 5 => .ok .blockDownload
  | 6 => .ok .blockUpload
  | _ => .error (.invalidCommandSpecifier value)

/-- `CommandSpecifier` of `src/frame/sdo.rs`. -/
inductive CommandSpecifier where
  | abortTransfer
  | client (ccs : ClientCommandSpecifier)
  | server (scs : ServerCommandSpecifier)
  deriving DecidableEq

/-- Mirrors `CommandSpecifier::new` (`src/frame/sdo.rs` lines 24-32):
value 4 is AbortTransfer in either direction; otherwise the direction
selects the client or the server specifier set. -/
def CommandSpecifier.new (direction : Direction) (value : Nat) :
    Except Error CommandSpecifier :=
  if value = 4 then .ok .abortTransfer
  else
    match direction with
    | .tx => (ServerCommandSpecifier.new value).map .server
    | .rx => (ClientCommandSpecifier.new value).map .client

/-- Mirrors `CommandSpecifier::new_with_byte`: bits 5-7 of byte 0. -/
def CommandSpecifier.new_with_byte (direction : Direction) (byte : Nat) :
    Except Error CommandSpecifier :=
  CommandSpecifier.new direction ((byte &&& 0xE0) >>> 5)

/-- Mirrors `CommandSpecifier::as_num`. -/
def CommandSpecifier.as_num : CommandSpecifier → Nat
  | .abortTransfer => 4
  | .client ccs => ccs.val
  | .server scs => scs.val

/-- Mirrors `CommandSpecifier::as_byte_fragment`. -/
def CommandSpecifier.as_byte_fragment (cs : CommandSpecifier) : Nat :=
  (cs.as_num <<< 5) &&& 0xE0

/-- Little-endian reconstruction of a `u16` from two bytes
(`u16::from_le_bytes`). -/
def leU16 (b0 b1 : Nat) : Nat := b0 + 256 * b1

/-- Little-endian reconstruction of a `u32` from four bytes
(`u32::from_le_bytes`). -/
def leU32 (b0 b1 b2 b3 : Nat) : Nat :=
  b0 + 256 * b1 + 65536 * b2 + 16777216 * b3

/-- `u16::to_le_bytes` (the second limb's `% 256` is vacuous for values
below 2^16, matching the Rust type). -/
def u16LeBytes (x : Nat) : List Nat := [x % 256, x / 256 % 256]

/-- `u32::to_le_bytes`; applied to a `usize` cast `as u32` this also
performs the truncation to the low 32 bits, as in the Rust source. -/
def u32LeBytes (x : Nat) : List Nat :=
  [x % 256, x / 256 % 256, x / 65536 % 256, x / 16777216 % 256]

/-- `SdoTransferType` of `src/frame/sdo.rs`. -/
inductive SdoTransferType where
  | normal (size : Nat)
  | expedited (sized : Bool) (data : List Nat)
  deriving DecidableEq

/-- Mirrors `SdoTransferType::new_with_bytes` (`src/frame/sdo.rs` lines
118-163).  The sole caller guarantees at least 8 bytes, so indexing
`bytes[0]` is modelled with `getD`; when `sized` holds the void-byte field
is at most 3, so `data_end_pos ≥ 5` and the slice `bytes[4..data_end_pos]`
never underflows. -/
def SdoTransferType.new_with_bytes (bytes : List Nat) :
    Except Error SdoTransferType :=
  let b0 := bytes.getD 0 0
  if b0 &&& 0x02 = 0 then
    if b0 &&& 0x01 = 0 then .error .notImplemented
    else if bytes.length < 8 then
      .error (.invalidDataLength bytes.length "SdoFrame")
    else
      .ok (.normal (leU32 (bytes.getD 4 0) (bytes.getD 5 0)
        (bytes.getD 6 0) (bytes.getD 7 0)))
  else
    let sized := b0 &&& 0x01 != 0
    let data_end_pos := if sized then 8 - ((b0 &&& 0x0C) >>> 2) else 8
    if bytes.length < data_end_pos then
      .error (.invalidDataLength bytes.length "SdoFrame")
    else
      .ok (.expedited sized ((bytes.drop 4).take (data_end_pos - 4)))

/-- Mirrors `SdoTransferType::as_first_byte_fragment` (lines 165-179).
Rust computes `(MAX_DATA_BYTES - data.len()) as u8` in `usize`; for
`data.len() > 4` that subtraction underflows (a panic in a debug build),
and the oversized value is unencodable anyway because `as_data_bytes`
below panics unconditionally for it, so the truncating `Nat` subtraction
here is only ever observed on lengths at most 4. -/
def SdoTransferType.as_first_byte_fragment : SdoTransferType → Nat
  | .normal _ => 0x01
  | .expedited sized data =>
    ((if sized then ((4 - data.length) <<< 2) &&& 0x0C else 0x00) ||| 0x02)
      ||| (if sized then 1 else 0)

/-- Mirrors `SdoTransferType::as_data_bytes` (lines 181-190).
`buf[..data.len()].copy_from_slice(data)` panics whenever
`data.len() > MAX_DATA_BYTES = 4`; the panic is modelled as `none`. -/
def SdoTransferType.as_data_bytes : SdoTransferType → Option (List Nat)
  | .normal size => some (u32LeBytes size)
  | .expedited _ data =>
    if data.length ≤ 4 then some (data ++ List.replicate (4 - data.length) 0)
    else none

/-- `SdoSegmentData` of `src/frame/sdo.rs` (a `Vec<u8>` newtype). -/
structure SdoSegmentData where
  data : List Nat
  deriving DecidableEq

/-- Mirrors `SdoSegmentData::as_first_byte_fragment` (lines 201-204);
as above, the subtraction underflows in Rust for more than 7 bytes. -/
def SdoSegmentData.as_first_byte_fragment (d : SdoSegmentData) : Nat :=
  ((7 - d.data.length) <<< 1) &&& 0x0E

/-- `SdoSegmentToggle` of `src/frame/sdo.rs` (a `bool` newtype). -/
structure SdoSegmentToggle where
  val : Bool
  deriving DecidableEq

/-- Mirrors `SdoSegmentToggle::as_first_byte_fragment`. -/
def SdoSegmentToggle.as_first_byte_fragment (t : SdoSegmentToggle) : Nat :=
  (if t.val then 1 else 0) <<< 4

/-- `SdoCommand` of `src/frame/sdo.rs` (lines 224-269). -/
inductive SdoCommand where
  | initiateDownloadRequest (index : Nat) (sub_index : Nat)
      (transfer_type : SdoTransferType)
  | initiateDownloadResponse (index : Nat) (sub_index : Nat)
  | downloadSegmentRequest (toggle : SdoSegmentToggle) (data : SdoSegmentData)
      (continued : Bool)
  | downloadSegmentResponse (toggle : SdoSegmentToggle)
  | initiateUploadRequest (index : Nat) (sub_index : Nat)
  | initiateUploadResponse (index : Nat) (sub_index : Nat)
      (transfer_type : SdoTransferType)
  | uploadSegmentRequest (toggle : SdoSegmentToggle)
  | uploadSegmentResponse (toggle : SdoSegmentToggle) (data : SdoSegmentData)
      (continued : Bool)
  | abortTransfer (index : Nat) (sub_index : Nat) (abort_code : Nat)
  deriving DecidableEq

/-- `Vec::resize(n, fill)`: truncate to `n` elements or pad with `fill`
up to `n` elements. -/
def resizeTo (n : Nat) (fill : Nat) (l : List Nat) : List Nat :=
  l.take n ++ List.replicate (n - l.length) fill

/-- Mirrors `SdoCommand::as_bytes` (`src/frame/sdo.rs` lines 272-375):
push the first byte, append the little-endian index, the sub-index and
the data bytes as each variant requires, then `buf.resize(8, 0x00)`.
The result is `none` exactly when the Rust encoder panics (an expedited
transfer carrying more than 4 data bytes, see `as_data_bytes`). -/
def SdoCommand.as_bytes : SdoCommand → Option (List Nat)
  | .abortTransfer index sub_index abort_code =>
    some (resizeTo 8 0 ([CommandSpecifier.abortTransfer.as_byte_fragment]
      ++ u16LeBytes index ++ [sub_index] ++ u32LeBytes abort_code))
  | .initiateDownloadRequest index sub_index transfer_type =>
    (transfer_type.as_data_bytes).map fun db =>
      resizeTo 8 0
        ([(CommandSpecifier.client .initiateDownloadRequest).as_byte_fragment
            ||| transfer_type.as_first_byte_fragment]
          ++ u16LeBytes index ++ [sub_index] ++ db)
  | .initiateDownloadResponse index sub_index =>
    some (resizeTo 8 0
      ([(CommandSpecifier.server .initiateDownloadResponse).as_byte_fragment]
        ++ u16LeBytes index ++ [sub_index]))
  | .downloadSegmentRequest toggle data continued =>
    some (resizeTo 8 0
      ([(CommandSpecifier.client .downloadSegmentRequest).as_byte_fragment
          ||| toggle.as_first_byte_fragment ||| data.as_first_byte_fragment
          ||| (if continued then 1 else 0)]
        ++ data.data))
  | .downloadSegmentResponse toggle =>
    some (resizeTo 8 0
      [(CommandSpecifier.server .downloadSegmentResponse).as_byte_fragment
        ||| toggle.as_first_byte_fragment])
  | .initiateUploadRequest index sub_index =>
    some (resizeTo 8 0
      ([(CommandSpecifier.client .initiateUploadRequest).as_byte_fragment]
        ++ u16LeBytes index ++ [sub_index]))
  | .initiateUploadResponse index sub_index transfer_type =>
    (transfer_type.as_data_bytes).map fun db =>
      resizeTo 8 0
        ([(CommandSpecifier.server .initiateUploadResponse).as_byte_fragment
            ||| transfer_type.as_first_byte_fragment]
          ++ u16LeBytes index ++ [sub_index] ++ db)
  | .uploadSegmentRequest toggle =>
    some (resizeTo 8 0
      [(CommandSpecifier.client .uploadSegmentRequest).as_byte_fragment
        ||| toggle.as_first_byte_fragment])
  | .uploadSegmentResponse toggle data continued =>
    some (resizeTo 8 0
      ([(CommandSpecifier.server .uploadSegmentResponse).as_byte_fragment
          ||| toggle.as_first_byte_fragment ||| data.as_first_byte_fragment
          ||| (if continued then 1 else 0)]
        ++ data.data))

/-- `SdoFrame` of `src/frame/sdo.rs` (lines 378-383). -/
structure SdoFrame where
  direction : Direction
  node_id : NodeID
  command : SdoCommand
  deriving DecidableEq

/-- Mirrors `SdoFrame::new_sdo_read_frame`. -/
def SdoFrame.new_sdo_read_frame (node_id : NodeID) (index : Nat)
    (sub_index : Nat) : SdoFrame :=
  ⟨.rx, node_id, .initiateUploadRequest index sub_index⟩

/-- Mirrors `SdoFrame::new_sdo_write_frame` (lines 394-409): an expedited
sized InitiateDownloadRequest; the data length is not validated. -/
def SdoFrame.new_sdo_write_frame (node_id : NodeID) (index : Nat)
    (sub_index : Nat) (data : List Nat) : SdoFrame :=
  ⟨.rx, node_id, .initiateDownloadRequest index sub_index (.expedited true data)⟩

/-- Mirrors `SdoFrame::new_with_bytes` (lines 411-488).  The Rust code
reads `index` and `sub_index` inside the five-specifier branch; hoisting
the two pure reads out of the match is observationally identical. -/
def SdoFrame.new_with_bytes (direction : Direction) (node_id : NodeID)
    (bytes : List Nat) : Except Error SdoFrame :=
  if bytes.length < 8 then .error (.invalidDataLength bytes.length "SdoFrame")
  else do
    let command_specifier ← CommandSpecifier.new_with_byte direction (bytes.getD 0 0)
    let index := leU16 (bytes.getD 1 0) (bytes.getD 2 0)
    let sub_index := bytes.getD 3 0
    match command_specifier with
    | .abortTransfer =>
      .ok ⟨direction, node_id, .abortTransfer index sub_index
        (leU32 (bytes.getD 4 0) (bytes.getD 5 0) (bytes.getD 6 0) (bytes.getD 7 0))⟩
    | .server .initiateDownloadResponse =>
      .ok ⟨direction, node_id, .initiateDownloadResponse index sub_index⟩
    | .client .initiateUploadRequest =>
      .ok ⟨direction, node_id, .initiateUploadRequest index sub_index⟩
    | .client .initiateDownloadRequest => do
      let transfer_type ← SdoTransferType.new_with_bytes bytes
      .ok ⟨direction, node_id, .initiateDownloadRequest index sub_index transfer_type⟩
    | .server .initiateUploadResponse => do
      let transfer_type ← SdoTransferType.new_with_bytes bytes
      .ok ⟨direction, node_id, .initiateUploadResponse index sub_index transfer_type⟩
    | _ => .error .notImplemented

/-- Mirrors `ConvertibleFrame::frame_data` for `SdoFrame` (line 505-507):
the wire payload is the command's encoding. -/
def SdoFrame.frame_data (f : SdoFrame) : Option (List Nat) :=
  f.command.as_bytes

/-- `ObjectDictionaryAddress` of `src/frame_handler.rs` (lines 15-20):
the correlation key of one SDO transaction. -/
structure ObjectDictionaryAddress where
  node_id : NodeID
  index : Nat
  sub_index : Nat
  deriving DecidableEq

/-- The waiting table of `FrameHandler` — `HashMap<ObjectDictionaryAddress,
oneshot::Sender<Vec<u8>>>` — modelled extensionally as a partial map from
keys to completion-signal identifiers (each oneshot channel is represented
by a distinct `Nat`). -/
def WaitingTable : Type := ObjectDictionaryAddress → Option Nat

/-- The freshly created empty table (`HashMap::new()`). -/
def emptyWaitingTable : WaitingTable := fun _ => none

/-- Mirrors `FrameHandler::add_waiting_item` (`src/frame_handler.rs` lines
49-65): `HashMap::insert` stores the new sender under the key, replacing
and silently dropping any sender already registered there (the returned
old value is discarded by the Rust code). -/
def FrameHandler.add_waiting_item (table : WaitingTable)
    (key : ObjectDictionaryAddress) (sender : Nat) : WaitingTable :=
  fun k => if k = key then some sender else table k

/-- `HashMap::remove` on the waiting table. -/
def removeWaiting (table : WaitingTable) (key : ObjectDictionaryAddress) :
    WaitingTable :=
  fun k => if k = key then none else table k

/-- Mirrors the body of the receiver loop of `FrameReceiver::new`
(`src/frame_handler.rs` lines 98-115) for one incoming SDO frame: remove
the entry for the frame's key; when one was present, resolve it with the
frame's payload bytes (`sender.send(frame.data)`); otherwise the frame is
dropped and the table is untouched.  The second component reports the
resolution performed, if any. -/
def FrameReceiver.handle_sdo_frame (table : WaitingTable)
    (key : ObjectDictionaryAddress) (payload : List Nat) :
    WaitingTable × Option (Nat × List Nat) :=
  match table key with
  | some sender => (removeWaiting table key, some (sender, payload))
  | none => (table, none)

/-- The interleaved actions touching the waiting table: a caller
registering a completion signal (`sdo_read` step 1) or the background
receiver dispatching one incoming SDO frame. -/
inductive HandlerEvent where
  | register (key : ObjectDictionaryAddress) (sender : Nat)
  | receiveSdo (key : ObjectDictionaryAddress) (payload : List Nat)
  deriving DecidableEq

/-- Runs a sequence of events against the table, collecting every
resolution `(sender, payload)` performed by the receiver. -/
def runHandler (table : WaitingTable) :
    List HandlerEvent → WaitingTable × List (Nat × List Nat)
  | [] => (table, [])
  | .register key sender :: rest =>
    runHandler (FrameHandler.add_waiting_item table key sender) rest
  | .receiveSdo key payload :: rest =>
    let step := FrameReceiver.handle_sdo_frame table key payload
    let next := runHandler step.1 rest
    (next.1, step.2.toList ++ next.2)
deriving instance DecidableEq for Except

/-- Monad-bind reduction for `Except`, used to step through the decoder. -/
theorem except_bind_ok {ε α β : Type} (a : α) (f : α → Except ε β) :
    (Except.ok a : Except ε α) >>= f = f a := rfl

/-- `Vec::resize(n, fill)` always yields exactly `n` elements. -/
theorem resizeTo_length (n fill : Nat) (l : List Nat) :
    (resizeTo n fill l).length = n := by
  simp only [resizeTo, List.length_append, List.length_take, List.length_replicate]
  omega

/-- Recombining the two little-endian bytes of a value below 2^16. -/
theorem leU16_le_bytes (x : Nat) (h : x < 65536) :
    leU16 (x % 256) (x / 256 % 256) = x := by
  unfold leU16
  omega

/-- Recombining the four little-endian bytes of a value below 2^32. -/
theorem leU32_le_bytes (x : Nat) (h : x < 4294967296) :
    leU32 (x % 256) (x / 256 % 256) (x / 65536 % 256) (x / 16777216 % 256) = x := by
  unfold leU32
  omega

/-- Decoding an 8-byte frame whose first byte carries specifier 4. -/
theorem new_with_bytes_of_abort (d : Direction) (n : NodeID)
    (b0 b1 b2 b3 b4 b5 b6 b7 : Nat)
    (hcs : CommandSpecifier.new_with_byte d b0 = .ok .abortTransfer) :
    SdoFrame.new_with_bytes d n [b0, b1, b2, b3, b4, b5, b6, b7]
      = .ok ⟨d, n, .abortTransfer (leU16 b1 b2) b3 (leU32 b4 b5 b6 b7)⟩ := by
  simp only [SdoFrame.new_with_bytes, List.length_cons, List.length_nil,
    List.getD_cons_zero, List.getD_cons_succ]
  norm_num
  rw [hcs, except_bind_ok]

/-- Decoding an 8-byte frame classified as InitiateUploadRequest. -/
theorem new_with_bytes_of_iur (n : NodeID) (b0 b1 b2 b3 b4 b5 b6 b7 : Nat)
    (hcs : CommandSpecifier.new_with_byte .rx b0
      = .ok (.client .initiateUploadRequest)) :
    SdoFrame.new_with_bytes .rx n [b0, b1, b2, b3, b4, b5, b6, b7]
      = .ok ⟨.rx, n, .initiateUploadRequest (leU16 b1 b2) b3⟩ := by
  simp only [SdoFrame.new_with_bytes, List.length_cons, List.length_nil,
    List.getD_cons_zero, List.getD_cons_succ]
  norm_num
  rw [hcs, except_bind_ok]

/-- Decoding an 8-byte frame classified as InitiateDownloadResponse. -/
theorem new_with_bytes_of_idresp (n : NodeID) (b0 b1 b2 b3 b4 b5 b6 b7 : Nat)
    (hcs : CommandSpecifier.new_with_byte .tx b0
      = .ok (.server .initiateDownloadResponse)) :
    SdoFrame.new_with_bytes .tx n [b0, b1, b2, b3, b4, b5, b6, b7]
      = .ok ⟨.tx, n, .initiateDownloadResponse (leU16 b1 b2) b3⟩ := by
  simp only [SdoFrame.new_with_bytes, List.length_cons, List.length_nil,
    List.getD_cons_zero, List.getD_cons_succ]
  norm_num
  rw [hcs, except_bind_ok]

/-- Decoding an 8-byte frame classified as InitiateDownloadRequest, given
the decoded transfer type. -/
theorem new_with_bytes_of_idreq (n : NodeID) (b0 b1 b2 b3 b4 b5 b6 b7 : Nat)
    (tt : SdoTransferType)
    (hcs : CommandSpecifier.new_with_byte .rx b0
      = .ok (.client .initiateDownloadRequest))
    (htt : SdoTransferType.new_with_bytes [b0, b1, b2, b3, b4, b5, b6, b7]
      = .ok tt) :
    SdoFrame.new_with_bytes .rx n [b0, b1, b2, b3, b4, b5, b6, b7]
      = .ok ⟨.rx, n, .initiateDownloadRequest (leU16 b1 b2) b3 tt⟩ := by
  simp only [SdoFrame.new_with_bytes, List.length_cons, List.length_nil,
    List.getD_cons_zero, List.getD_cons_succ]
  norm_num
  rw [hcs, except_bind_ok]
  rw [htt]
  rfl

/-- Decoding an 8-byte frame classified as InitiateUploadResponse, given
the decoded transfer type. -/
theorem new_with_bytes_of_iuresp (n : NodeID) (b0 b1 b2 b3 b4 b5 b6 b7 : Nat)
    (tt : SdoTransferType)
    (hcs : CommandSpecifier.new_with_byte .tx b0
      = .ok (.server .initiateUploadResponse))
    (htt : SdoTransferType.new_with_bytes [b0, b1, b2, b3, b4, b5, b6, b7]
      = .ok tt) :
    SdoFrame.new_with_bytes .tx n [b0, b1, b2, b3, b4, b5, b6, b7]
      = .ok ⟨.tx, n, .initiateUploadResponse (leU16 b1 b2) b3 tt⟩ := by
  simp only [SdoFrame.new_with_bytes, List.length_cons, List.length_nil,
    List.getD_cons_zero, List.getD_cons_succ]
  norm_num
  rw [hcs, except_bind_ok]
  rw [htt]
  rfl

/-- Transfer-type decode, normal branch (size-indicator bit set). -/
theorem tt_decode_normal (b0 b1 b2 b3 b4 b5 b6 b7 : Nat)
    (h2 : b0 &&& 0x02 = 0) (h1 : ¬ b0 &&& 0x01 = 0) :
    SdoTransferType.new_with_bytes [b0, b1, b2, b3, b4, b5, b6, b7]
      = .ok (.normal (leU32 b4 b5 b6 b7)) := by
  simp only [SdoTransferType.new_with_bytes, List.length_cons, List.length_nil,
    List.getD_cons_zero, List.getD_cons_succ, h2, h1]
  norm_num

/-- Transfer-type decode, sized expedited branch with void-byte count `v`. -/
theorem tt_decode_expedited_take (b0 b1 b2 b3 b4 b5 b6 b7 v : Nat)
    (h2 : ¬ b0 &&& 0x02 = 0) (hs : (b0 &&& 0x01 != 0) = true)
    (hv : (b0 &&& 0x0C) >>> 2 = v) (hvle : v ≤ 3) :
    SdoTransferType.new_with_bytes [b0, b1, b2, b3, b4, b5, b6, b7]
      = .ok (.expedited true ([b4, b5, b6, b7].take (4 - v))) := by
  simp only [SdoTransferType.new_with_bytes, List.length_cons, List.length_nil,
    List.getD_cons_zero, List.getD_cons_succ, hv, hs]
  rw [if_neg h2]
  norm_num
  rw [if_neg (by omega : ¬ (8 : Nat) < 8 - v)]
  have h84 : 8 - v - 4 = 4 - v := by omega
  rw [h84]

/-- Transfer-type decode, unsized expedited branch: the data window is the
full four-byte tail. -/
theorem tt_decode_expedited_unsized (b0 b1 b2 b3 b4 b5 b6 b7 : Nat)
    (h2 : ¬ b0 &&& 0x02 = 0) (hs : (b0 &&& 0x01 != 0) = false) :
    SdoTransferType.new_with_bytes [b0, b1, b2, b3, b4, b5, b6, b7]
      = .ok (.expedited false [b4, b5, b6, b7]) := by
  simp only [SdoTransferType.new_with_bytes, List.length_cons, List.length_nil,
    List.getD_cons_zero, List.getD_cons_succ, hs]
  rw [if_neg h2]
  norm_num

/-- C1: encoding the frame built by new_sdo_write_frame(node 3, index 0x1200,
sub-index 1, data [0x0A,0x06,0x00,0x00]) yields exactly
[0x23,0x00,0x12,0x01,0x0A,0x06,0x00,0x00], and the frame built by
new_sdo_write_frame(node 1, index 0x1402, sub-index 2, data [0xFF]) encodes
to exactly [0x2F,0x02,0x14,0x02,0xFF,0x00,0x00,0x00]. -/
theorem c1_sdo_expedited_write_encode :
    (SdoFrame.new_sdo_write_frame ⟨3⟩ 0x1200 1 [0x0A, 0x06, 0x00, 0x00]).frame_data
        = some [0x23, 0x00, 0x12, 0x01, 0x0A, 0x06, 0x00, 0x00]
    ∧ (SdoFrame.new_sdo_write_frame ⟨1⟩ 0x1402 2 [0xFF]).frame_data
        = some [0x2F, 0x02, 0x14, 0x02, 0xFF, 0x00, 0x00, 0x00] := by
  constructor <;> rfl

/-- C3: command-specifier value 4 decodes to AbortTransfer in both
directions; value 7 fails with InvalidCommandSpecifier in both directions;
and the 8 bytes [0x80,0x00,0x10,0x00,0x02,0x00,0x01,0x06] decode in either
direction to AbortTransfer with index 0x1000, sub_index 0 and abort_code
0x06010002 (the abort code being the little-endian u32 of bytes 4-7). -/
theorem c3_abort_and_invalid_specifier :
    (∀ d : Direction, CommandSpecifier.new d 4 = .ok .abortTransfer)
    ∧ (∀ d : Direction, CommandSpecifier.new d 7
        = .error (.invalidCommandSpecifier 7))
    ∧ (∀ (d : Direction) (n : NodeID),
        SdoFrame.new_with_bytes d n [0x80, 0x00, 0x10, 0x00, 0x02, 0x00, 0x01, 0x06]
          = .ok ⟨d, n, .abortTransfer 0x1000 0 0x06010002⟩) := by
  refine ⟨fun d => rfl, fun d => ?_, fun d n => ?_⟩
  · cases d <;> rfl
  · have h := new_with_bytes_of_abort d n 0x80 0x00 0x10 0x00 0x02 0x00 0x01 0x06
      (by cases d <;> decide)
    rw [h]
    norm_num [leU16, leU32]

/-- C8: NodeID::new(raw) fails with InvalidNodeId(raw) exactly when
raw & 0x80 is non-zero, performs no other validation (every raw in 0..=127
succeeds, including 0), as_raw returns the stored byte unchanged, and in
particular new(127) succeeds while new(128) and new(255) fail. -/
theorem c8_node_id_new :
    (∀ raw : Nat, raw &&& 0x80 = 0 →
      NodeID.new raw = .ok ⟨raw⟩ ∧ (⟨raw⟩ : NodeID).as_raw = raw)
    ∧ (∀ raw : Nat, raw &&& 0x80 ≠ 0 →
      NodeID.new raw = .error (.invalidNodeId raw))
    ∧ (∀ raw < 128, NodeID.new raw = .ok ⟨raw⟩)
    ∧ NodeID.new 127 = .ok ⟨127⟩
    ∧ NodeID.new 128 = .error (.invalidNodeId 128)
    ∧ NodeID.new 255 = .error (.invalidNodeId 255) := by
  refine ⟨fun raw h => ⟨?_, rfl⟩, fun raw h => ?_, by decide, by decide, by decide, by decide⟩
  · simp [NodeID.new, h]
  · simp [NodeID.new, h]

/-- Witness for C8 at concrete inputs 5 and 200. -/
theorem c8_node_id_new_witness :
    NodeID.new 5 = .ok ⟨5⟩ ∧ NodeID.new 200 = .error (.invalidNodeId 200) :=
  ⟨(c8_node_id_new.1 5 (by decide)).1, c8_node_id_new.2.1 200 (by decide)⟩

/-- C10: an SDO initiate frame whose transfer-type bits are expedited = 0
and size-specified = 0 decodes to Err(NotImplemented) — neither accepted as
a Normal transfer nor an invalid-specifier or invalid-length failure; in
particular byte0 = 0x20 in the client direction and byte0 = 0x40 in the
server direction, with 8 bytes supplied. -/
theorem c10_unsized_normal_not_implemented :
    (∀ bytes : List Nat, bytes.getD 0 0 &&& 0x02 = 0 → bytes.getD 0 0 &&& 0x01 = 0 →
      SdoTransferType.new_with_bytes bytes = .error .notImplemented)
    ∧ (∀ n : NodeID,
      SdoFrame.new_with_bytes .rx n [0x20, 0, 0, 0, 0, 0, 0, 0]
        = .error .notImplemented)
    ∧ (∀ n : NodeID,
      SdoFrame.new_with_bytes .tx n [0x40, 0, 0, 0, 0, 0, 0, 0]
        = .error .notImplemented) := by
  refine ⟨fun bytes h2 h1 => ?_, fun n => rfl, fun n => rfl⟩
  simp only [SdoTransferType.new_with_bytes]
  rw [if_pos h2, if_pos h1]

/-- Witness for C10 at the concrete all-zero payload with byte0 = 0x60. -/
theorem c10_unsized_normal_not_implemented_witness :
    SdoTransferType.new_with_bytes [0x60, 0, 0, 0, 0, 0, 0, 0]
      = .error .notImplemented :=
  c10_unsized_normal_not_implemented.1 [0x60, 0, 0, 0, 0, 0, 0, 0]
    (by decide) (by decide)

/-- C9: new_sdo_write_frame performs no upper bound check on the data
length — construction succeeds for data of any length and stores the data
unchanged — and encoding a frame constructed from more than 4 data bytes is
not safe: the encoder's panic branch is reached (modelled as `none`). -/
theorem c9_write_frame_unchecked_length :
    (∀ (node_id : NodeID) (index sub_index : Nat) (data : List Nat),
      SdoFrame.new_sdo_write_frame node_id index sub_index data
        = ⟨.rx, node_id, .initiateDownloadRequest index sub_index (.expedited true data)⟩)
    ∧ (∀ (node_id : NodeID) (index sub_index : Nat) (data : List Nat),
      4 < data.length →
      (SdoFrame.new_sdo_write_frame node_id index sub_index data).frame_data = none) := by
  refine ⟨fun _ _ _ _ => rfl, fun node_id index sub_index data h => ?_⟩
  have h' : ¬ data.length ≤ 4 := by omega
  simp [SdoFrame.frame_data, SdoFrame.new_sdo_write_frame, SdoCommand.as_bytes,
    SdoTransferType.as_data_bytes, h']

/-- Witness for C9 with a five-byte payload. -/
theorem c9_write_frame_unchecked_length_witness :
    (SdoFrame.new_sdo_write_frame ⟨1⟩ 0x1200 1 [1, 2, 3, 4, 5]).frame_data = none :=
  c9_write_frame_unchecked_length.2 ⟨1⟩ 0x1200 1 [1, 2, 3, 4, 5] (by decide)

/-- C7: the SDO command encoder always emits exactly 8 bytes whenever it
returns at all, zero-padding unused trailing bytes (shown explicitly for
InitiateUploadRequest), and decoding fewer than 8 bytes fails with
InvalidDataLength reporting the given length, for every direction and node. -/
theorem c7_eight_byte_frames :
    (∀ (cmd : SdoCommand) (bs : List Nat), cmd.as_bytes = some bs → bs.length = 8)
    ∧ (∀ index sub_index : Nat,
      (SdoCommand.initiateUploadRequest index sub_index).as_bytes
        = some ([0x40] ++ u16LeBytes index ++ [sub_index] ++ [0, 0, 0, 0]))
    ∧ (∀ (d : Direction) (n : NodeID) (bytes : List Nat), bytes.length < 8 →
      SdoFrame.new_with_bytes d n bytes
        = .error (.invalidDataLength bytes.length "SdoFrame")) := by
  refine ⟨fun cmd bs h => ?_, fun index sub_index => rfl, fun d n bytes h => ?_⟩
  · cases cmd <;> simp only [SdoCommand.as_bytes, Option.map_eq_some',
      Option.some.injEq] at h
    case initiateDownloadRequest index sub_index tt =>
      obtain ⟨db, -, rfl⟩ := h
      exact resizeTo_length 8 0 _
    case initiateUploadResponse index sub_index tt =>
      obtain ⟨db, -, rfl⟩ := h
      exact resizeTo_length 8 0 _
    all_goals rw [← h]
    all_goals exact resizeTo_length 8 0 _
  · unfold SdoFrame.new_with_bytes
    rw [if_pos h]

/-- Witness for C7: the encoding of a concrete abort command has 8 bytes,
and decoding a 3-byte slice fails with InvalidDataLength 3. -/
theorem c7_eight_byte_frames_witness :
    ([0x80, 1, 0, 2, 3, 0, 0, 0] : List Nat).length = 8
    ∧ SdoFrame.new_with_bytes .rx ⟨1⟩ [1, 2, 3]
        = .error (.invalidDataLength 3 "SdoFrame") :=
  ⟨c7_eight_byte_frames.1 (.abortTransfer 1 2 3) [0x80, 1, 0, 2, 3, 0, 0, 0] (by decide),
    by
      have h := c7_eight_byte_frames.2.2 .rx ⟨1⟩ [1, 2, 3] (by decide)
      simpa using h⟩

/-- Once a completion signal is absent from the waiting table, no later
event sequence that never re-registers that signal can resolve it. -/
theorem runHandler_never_resolves (events : List HandlerEvent) :
    ∀ (t : WaitingTable) (a : Nat),
      (∀ k, t k ≠ some a) →
      (∀ k s, HandlerEvent.register k s ∈ events → s ≠ a) →
      ∀ p, (a, p) ∉ (runHandler t events).2 := by
  induction events with
  | nil =>
    intro t a _ _ p
    simp [runHandler]
  | cons e rest ih =>
    intro t a ht he p
    cases e with
    | register k s =>
      have hs : s ≠ a := he k s (List.mem_cons_self _ _)
      refine ih (FrameHandler.add_waiting_item t k s) a ?_ ?_ p
      · intro k'
        by_cases hk : k' = k
        · simpa [FrameHandler.add_waiting_item, hk] using hs
        · simpa [FrameHandler.add_waiting_item, hk] using ht k'
      · intro k' s' hm
        exact he k' s' (List.mem_cons_of_mem _ hm)
    | receiveSdo k payload =>
      simp only [runHandler, List.mem_append]
      push_neg
      have hnext : ∀ (t' : WaitingTable), (∀ k', t' k' ≠ some a) →
          (a, p) ∉ (runHandler t' rest).2 := fun t' ht' =>
        ih t' a ht' (fun k' s' hm => he k' s' (List.mem_cons_of_mem _ hm)) p
      cases hk : t k with
      | none =>
        constructor
        · simp [FrameReceiver.handle_sdo_frame, hk]
        · simpa [FrameReceiver.handle_sdo_frame, hk] using hnext t ht
      | some s =>
        constructor
        · have hsa : s ≠ a := fun h => ht k (h ▸ hk)
          simp [FrameReceiver.handle_sdo_frame, hk, Prod.ext_iff]
          intro h
          exact absurd h.symm hsa
        · have hrm : ∀ k', removeWaiting t k k' ≠ some a := by
            intro k'
            by_cases hk' : k' = k
            · simp [removeWaiting, hk']
            · simpa [removeWaiting, hk'] using ht k'
          simpa [FrameReceiver.handle_sdo_frame, hk] using hnext _ hrm

/-- C4: a second registration for a key that already has a pending entry
replaces that entry, and the discarded completion signal is never resolved
by any later events that do not re-register it; an incoming SDO frame whose
key is pending removes the entry and resolves it exactly once with the
frame's payload (a second identical frame resolves nothing); a frame whose
key has no entry is dropped with no state change. -/
theorem c4_correlation_table :
    (∀ (t : WaitingTable) (k : ObjectDictionaryAddress) (s1 s2 : Nat),
      (FrameHandler.add_waiting_item (FrameHandler.add_waiting_item t k s1) k s2) k
        = some s2)
    ∧ (∀ (k : ObjectDictionaryAddress) (s1 s2 : Nat) (events : List HandlerEvent),
      s1 ≠ s2 →
      (∀ k2 s, HandlerEvent.register k2 s ∈ events → s ≠ s1) →
      ∀ p, (s1, p) ∉ (runHandler (FrameHandler.add_waiting_item
          (FrameHandler.add_waiting_item emptyWaitingTable k s1) k s2) events).2)
    ∧ (∀ (t : WaitingTable) (k : ObjectDictionaryAddress) (payload : List Nat) (s : Nat),
      t k = some s →
      FrameReceiver.handle_sdo_frame t k payload = (removeWaiting t k, some (s, payload))
      ∧ FrameReceiver.handle_sdo_frame (removeWaiting t k) k payload
          = (removeWaiting t k, none))
    ∧ (∀ (t : WaitingTable) (k : ObjectDictionaryAddress) (payload : List Nat),
      t k = none → FrameReceiver.handle_sdo_frame t k payload = (t, none)) := by
  refine ⟨fun t k s1 s2 => ?_, fun k s1 s2 events hne hreg p => ?_,
    fun t k payload s h => ⟨?_, ?_⟩, fun t k payload h => ?_⟩
  · simp [FrameHandler.add_waiting_item]
  · refine runHandler_never_resolves events _ s1 ?_ hreg p
    intro k'
    by_cases hk : k' = k
    · simp [FrameHandler.add_waiting_item, hk]
      exact fun h => hne h.symm
    · simp [FrameHandler.add_waiting_item, hk, emptyWaitingTable]
  · simp [FrameReceiver.handle_sdo_frame, h]
  · simp [FrameReceiver.handle_sdo_frame, removeWaiting]
  · simp [FrameReceiver.handle_sdo_frame, h]

/-- Witness for C4 on a concrete key, signals 7 and 8, and one incoming
frame with payload [0xAB]. -/
theorem c4_correlation_table_witness :
    (FrameHandler.add_waiting_item (FrameHandler.add_waiting_item emptyWaitingTable
        ⟨⟨1⟩, 0x1018, 2⟩ 7) ⟨⟨1⟩, 0x1018, 2⟩ 8) ⟨⟨1⟩, 0x1018, 2⟩ = some 8
    ∧ ((7, [0xAB]) ∉ (runHandler (FrameHandler.add_waiting_item
        (FrameHandler.add_waiting_item emptyWaitingTable ⟨⟨1⟩, 0x1018, 2⟩ 7)
        ⟨⟨1⟩, 0x1018, 2⟩ 8) [.receiveSdo ⟨⟨1⟩, 0x1018, 2⟩ [0xAB]]).2)
    ∧ FrameReceiver.handle_sdo_frame (FrameHandler.add_waiting_item emptyWaitingTable
        ⟨⟨1⟩, 0x1018, 2⟩ 9) ⟨⟨1⟩, 0x1018, 2⟩ [0xCD]
      = (removeWaiting (FrameHandler.add_waiting_item emptyWaitingTable
          ⟨⟨1⟩, 0x1018, 2⟩ 9) ⟨⟨1⟩, 0x1018, 2⟩, some (9, [0xCD]))
    ∧ FrameReceiver.handle_sdo_frame emptyWaitingTable ⟨⟨1⟩, 0x1018, 2⟩ [0xCD]
      = (emptyWaitingTable, none) :=
  ⟨c4_correlation_table.1 emptyWaitingTable ⟨⟨1⟩, 0x1018, 2⟩ 7 8,
   c4_correlation_table.2.1 ⟨⟨1⟩, 0x1018, 2⟩ 7 8 [.receiveSdo ⟨⟨1⟩, 0x1018, 2⟩ [0xAB]]
     (by decide) (by intro k2 s hm; simp at hm) [0xAB],
   (c4_correlation_table.2.2.1 _ ⟨⟨1⟩, 0x1018, 2⟩ [0xCD] 9 (by simp [FrameHandler.add_waiting_item])).1,
   c4_correlation_table.2.2.2 emptyWaitingTable ⟨⟨1⟩, 0x1018, 2⟩ [0xCD] rfl⟩

/-- C5 counterexample: Emergency(NodeID 0) encodes to 0x080, which decodes
to Sync, not back to Emergency(0); and 0x101 is accepted by the decoder as
TimeStamp, whose re-encoding is 0x100, not 0x101 — so the inverse-pair
property fails in both directions as originally stated. -/
theorem c5_cob_id_inverse_counterexample :
    CommunicationObject.new ((CommunicationObject.emergency ⟨0⟩).as_cob_id) = .ok .sync
    ∧ CommunicationObject.new ((CommunicationObject.emergency ⟨0⟩).as_cob_id)
        ≠ .ok (.emergency ⟨0⟩)
    ∧ CommunicationObject.new 0x101 = .ok .timeStamp
    ∧ CommunicationObject.timeStamp.as_cob_id ≠ 0x101 := by
  decide

set_option maxRecDepth 2000 in
/-- C5 (amended): CommunicationObject::new inverts as_cob_id for every
value whose node id is valid, except Emergency(NodeID 0) (whose id 0x080
decodes to Sync); as_cob_id inverts new for every accepted id outside
0x101..=0x17F (which all collapse to TimeStamp); and the three concrete
identities RxSDO(11) = 0x60B, TxPDO2(4) = 0x284, TxLSS = 0x7E4 hold. -/
theorem c5_cob_id_inverse :
    (∀ v : CommunicationObject, v.nodeRaw < 128 → v ≠ .emergency ⟨0⟩ →
      CommunicationObject.new v.as_cob_id = .ok v)
    ∧ (∀ id < 0x800, (id < 0x101 ∨ 0x17F < id) → cobIdRoundTrips id = true)
    ∧ (CommunicationObject.rxSDO ⟨11⟩).as_cob_id = 0x60B
    ∧ (CommunicationObject.txPDO2 ⟨4⟩).as_cob_id = 0x284
    ∧ CommunicationObject.txLSS.as_cob_id = 0x7E4 := by
  have hnested : ∀ hi < 16, ∀ lo < 128,
      (128 * hi + lo < 0x101 ∨ 0x17F < 128 * hi + lo) →
      cobIdRoundTrips (128 * hi + lo) = true := by decide
  refine ⟨fun v hv hne => ?_, fun id hid hex => ?_, by decide, by decide, by decide⟩
  case refine_2 =>
    have heq : 128 * (id / 128) + id % 128 = id := by omega
    have h := hnested (id / 128) (by omega) (id % 128) (by omega)
    rw [heq] at h
    exact h hex
  cases v with
  | nmtNodeControl => decide
  | globalFailsafeCommand => decide
  | sync => decide
  | timeStamp => decide
  | txLSS => decide
  | rxLSS => decide
  | emergency node =>
    obtain ⟨r⟩ := node
    have hr : r ≠ 0 := by
      intro h
      subst h
      exact hne rfl
    exact (by decide : ∀ r' < 128, r' ≠ 0 →
      CommunicationObject.new (0x080 + r') = .ok (.emergency ⟨r'⟩)) r hv hr
  | txPDO1 node =>
    obtain ⟨r⟩ := node
    exact (by decide : ∀ r' < 128,
      CommunicationObject.new (0x180 + r') = .ok (.txPDO1 ⟨r'⟩)) r hv
  | rxPDO1 node =>
    obtain ⟨r⟩ := node
    exact (by decide : ∀ r' < 128,
      CommunicationObject.new (0x200 + r') = .ok (.rxPDO1 ⟨r'⟩)) r hv
  | txPDO2 node =>
    obtain ⟨r⟩ := node
    exact (by decide : ∀ r' < 128,
      CommunicationObject.new (0x280 + r') = .ok (.txPDO2 ⟨r'⟩)) r hv
  | rxPDO2 node =>
    obtain ⟨r⟩ := node
    exact (by decide : ∀ r' < 128,
      CommunicationObject.new (0x300 + r') = .ok (.rxPDO2 ⟨r'⟩)) r hv
  | txPDO3 node =>
    obtain ⟨r⟩ := node
    exact (by decide : ∀ r' < 128,
      CommunicationObject.new (0x380 + r') = .ok (.txPDO3 ⟨r'⟩)) r hv
  | rxPDO3 node =>
    obtain ⟨r⟩ := node
    exact (by decide : ∀ r' < 128,
      CommunicationObject.new (0x400 + r') = .ok (.rxPDO3 ⟨r'⟩)) r hv
  | txPDO4 node =>
    obtain ⟨r⟩ := node
    exact (by decide : ∀ r' < 128,
      CommunicationObject.new (0x480 + r') = .ok (.txPDO4 ⟨r'⟩)) r hv
  | rxPDO4 node =>
    obtain ⟨r⟩ := node
    exact (by decide : ∀ r' < 128,
      CommunicationObject.new (0x500 + r') = .ok (.rxPDO4 ⟨r'⟩)) r hv
  | txSDO node =>
    obtain ⟨r⟩ := node
    exact (by decide : ∀ r' < 128,
      CommunicationObject.new (0x580 + r') = .ok (.txSDO ⟨r'⟩)) r hv
  | rxSDO node =>
    obtain ⟨r⟩ := node
    exact (by decide : ∀ r' < 128,
      CommunicationObject.new (0x600 + r') = .ok (.rxSDO ⟨r'⟩)) r hv
  | nmtNodeMonitoring node =>
    obtain ⟨r⟩ := node
    exact (by decide : ∀ r' < 128,
      CommunicationObject.new (0x700 + r') = .ok (.nmtNodeMonitoring ⟨r'⟩)) r hv

/-- Witness for C5 at RxSDO(NodeID 11) and id 0x284. -/
theorem c5_cob_id_inverse_witness :
    CommunicationObject.new ((CommunicationObject.rxSDO ⟨11⟩).as_cob_id)
      = .ok (.rxSDO ⟨11⟩)
    ∧ cobIdRoundTrips 0x284 = true :=
  ⟨c5_cob_id_inverse.1 (.rxSDO ⟨11⟩) (by decide) (by decide),
   c5_cob_id_inverse.2.1 0x284 (by decide) (by decide)⟩

/-- C6 counterexample: 0x123 lies in 0x101..=0x17F yet decodes successfully
to TimeStamp instead of failing with InvalidCobId. -/
theorem c6_invalid_cob_id_counterexample :
    CommunicationObject.new 0x123 = .ok .timeStamp
    ∧ CommunicationObject.new 0x123 ≠ .error (.invalidCobId 0x123) := by
  decide

set_option maxRecDepth 2000 in
/-- C6 (amended): ids with any bit above the low 11 set fail with
InvalidCobId; in the 0x000 band only 0 and 1 succeed and 2..=0x7F fail; in
the 0x780 band only 0x7E4 and 0x7E5 succeed; but the TimeStamp category
occupies its whole band: every id in 0x101..=0x17F decodes to Ok(TimeStamp)
rather than failing. -/
theorem c6_invalid_cob_id :
    (∀ id : Nat, id &&& 0xF800 ≠ 0 →
      CommunicationObject.new id = .error (.invalidCobId id))
    ∧ CommunicationObject.new 0 = .ok .nmtNodeControl
    ∧ CommunicationObject.new 1 = .ok .globalFailsafeCommand
    ∧ (∀ id < 0x80, 2 ≤ id →
      CommunicationObject.new id = .error (.invalidCobId id))
    ∧ CommunicationObject.new 0x7E4 = .ok .txLSS
    ∧ CommunicationObject.new 0x7E5 = .ok .rxLSS
    ∧ (∀ id < 0x800, 0x780 ≤ id → id ≠ 0x7E4 → id ≠ 0x7E5 →
      CommunicationObject.new id = .error (.invalidCobId id))
    ∧ (∀ id < 0x180, 0x101 ≤ id → CommunicationObject.new id = .ok .timeStamp) := by
  have hband : ∀ lo < 128, 0x780 + lo ≠ 0x7E4 → 0x780 + lo ≠ 0x7E5 →
      CommunicationObject.new (0x780 + lo) = .error (.invalidCobId (0x780 + lo)) := by
    decide
  have hts : ∀ lo < 0x7F, CommunicationObject.new (0x101 + lo) = .ok .timeStamp := by
    decide
  refine ⟨fun id h => ?_, by decide, by decide, by decide, by decide, by decide,
    fun id hid hge hne4 hne5 => ?_, fun id hid hge => ?_⟩
  · simp only [CommunicationObject.new]
    rw [if_neg h]
  · have heq : 0x780 + (id - 0x780) = id := by omega
    have h := hband (id - 0x780) (by omega)
    rw [heq] at h
    exact h hne4 hne5
  · have heq : 0x101 + (id - 0x101) = id := by omega
    have h := hts (id - 0x101) (by omega)
    rw [heq] at h
    exact h

/-- Witness for C6 at ids 0x1234 (high bits), 0x50, 0x7FF and 0x150. -/
theorem c6_invalid_cob_id_witness :
    CommunicationObject.new 0x1234 = .error (.invalidCobId 0x1234)
    ∧ CommunicationObject.new 0x50 = .error (.invalidCobId 0x50)
    ∧ CommunicationObject.new 0x7FF = .error (.invalidCobId 0x7FF)
    ∧ CommunicationObject.new 0x150 = .ok .timeStamp :=
  ⟨c6_invalid_cob_id.1 0x1234 (by decide),
   c6_invalid_cob_id.2.2.2.1 0x50 (by decide) (by decide),
   c6_invalid_cob_id.2.2.2.2.2.2.1 0x7FF (by decide) (by decide) (by decide) (by decide),
   c6_invalid_cob_id.2.2.2.2.2.2.2 0x150 (by decide) (by decide)⟩

/-- The transfer-type values whose 8-byte encoding decodes back to exactly
the same value: a Normal size below 2^32, a sized Expedited payload of 1 to
4 bytes, or an unsized Expedited payload of exactly 4 bytes. -/
def ttRoundTrippable : SdoTransferType → Bool
  | .normal size => decide (size < 4294967296)
  | .expedited true data => decide (1 ≤ data.length) && decide (data.length ≤ 4)
  | .expedited false data => decide (data.length = 4)

/-- Round trip for InitiateDownloadRequest under a round-trippable transfer
type: its encoding decodes back, in the client direction, to the frame
carrying the same command. -/
theorem sdo_idreq_roundtrip (n : NodeID) (index sub_index : Nat)
    (tt : SdoTransferType) (bs : List Nat) (hi : index < 65536)
    (htt : ttRoundTrippable tt = true)
    (hb : (SdoCommand.initiateDownloadRequest index sub_index tt).as_bytes = some bs) :
    SdoFrame.new_with_bytes .rx n bs
      = .ok ⟨.rx, n, .initiateDownloadRequest index sub_index tt⟩ := by
  cases tt with
  | normal size =>
    simp only [ttRoundTrippable, decide_eq_true_eq] at htt
    have henc : (SdoCommand.initiateDownloadRequest index sub_index (.normal size)).as_bytes
        = some [0x21, index % 256, index / 256 % 256, sub_index, size % 256,
            size / 256 % 256, size / 65536 % 256, size / 16777216 % 256] := by
      simp only [SdoCommand.as_bytes, SdoTransferType.as_first_byte_fragment,
        SdoTransferType.as_data_bytes, List.length_cons, List.length_nil]
      rfl
    rw [henc] at hb
    injection hb with hb
    subst hb
    rw [new_with_bytes_of_idreq n 0x21 _ _ _ _ _ _ _ _ (by decide)
      (tt_decode_normal _ _ _ _ _ _ _ _ (by decide) (by decide))]
    rw [leU16_le_bytes index hi, leU32_le_bytes size htt]
  | expedited sized data =>
    cases sized with
    | false =>
      simp only [ttRoundTrippable, decide_eq_true_eq] at htt
      rcases data with _ | ⟨a, _ | ⟨b, _ | ⟨c, _ | ⟨e, _ | ⟨f, rest⟩⟩⟩⟩⟩ <;>
        simp only [List.length_cons, List.length_nil] at htt <;> try omega
      have henc : (SdoCommand.initiateDownloadRequest index sub_index
            (.expedited false [a, b, c, e])).as_bytes
          = some [0x22, index % 256, index / 256 % 256, sub_index, a, b, c, e] := by
        simp only [SdoCommand.as_bytes, SdoTransferType.as_first_byte_fragment,
          SdoTransferType.as_data_bytes, List.length_cons, List.length_nil]
        rfl
      rw [henc] at hb
      injection hb with hb
      subst hb
      rw [new_with_bytes_of_idreq n 0x22 _ _ _ _ _ _ _ _ (by decide)
        (tt_decode_expedited_unsized _ _ _ _ _ _ _ _ (by decide) (by decide))]
      rw [leU16_le_bytes index hi]
    | true =>
      simp only [ttRoundTrippable, decide_eq_true_eq, Bool.and_eq_true] at htt
      rcases data with _ | ⟨a, _ | ⟨b, _ | ⟨c, _ | ⟨e, _ | ⟨f, rest⟩⟩⟩⟩⟩ <;>
        simp only [List.length_cons, List.length_nil] at htt <;> try omega
      · have henc : (SdoCommand.initiateDownloadRequest index sub_index
              (.expedited true [a])).as_bytes
            = some [0x2F, index % 256, index / 256 % 256, sub_index, a, 0, 0, 0] := by
          simp only [SdoCommand.as_bytes, SdoTransferType.as_first_byte_fragment,
            SdoTransferType.as_data_bytes, List.length_cons, List.length_nil]
          rfl
        rw [henc] at hb
        injection hb with hb
        subst hb
        rw [new_with_bytes_of_idreq n 0x2F _ _ _ _ _ _ _ _ (by decide)
          (tt_decode_expedited_take _ _ _ _ _ _ _ _ 3 (by decide) (by decide)
            (by decide) (by decide))]
        rw [leU16_le_bytes index hi]
        rfl
      · have henc : (SdoCommand.initiateDownloadRequest index sub_index
              (.expedited true [a, b])).as_bytes
            = some [0x2B, index % 256, index / 256 % 256, sub_index, a, b, 0, 0] := by
          simp only [SdoCommand.as_bytes, SdoTransferType.as_first_byte_fragment,
            SdoTransferType.as_data_bytes, List.length_cons, List.length_nil]
          rfl
        rw [henc] at hb
        injection hb with hb
        subst hb
        rw [new_with_bytes_of_idreq n 0x2B _ _ _ _ _ _ _ _ (by decide)
          (tt_decode_expedited_take _ _ _ _ _ _ _ _ 2 (by decide) (by decide)
            (by decide) (by decide))]
        rw [leU16_le_bytes index hi]
        rfl
      · have henc : (SdoCommand.initiateDownloadRequest index sub_index
              (.expedited true [a, b, c])).as_bytes
            = some [0x27, index % 256, index / 256 % 256, sub_index, a, b, c, 0] := by
          simp only [SdoCommand.as_bytes, SdoTransferType.as_first_byte_fragment,
            SdoTransferType.as_data_bytes, List.length_cons, List.length_nil]
          rfl
        rw [henc] at hb
        injection hb with hb
        subst hb
        rw [new_with_bytes_of_idreq n 0x27 _ _ _ _ _ _ _ _ (by decide)
          (tt_decode_expedited_take _ _ _ _ _ _ _ _ 1 (by decide) (by decide)
            (by decide) (by decide))]
        rw [leU16_le_bytes index hi]
        rfl
      · have henc : (SdoCommand.initiateDownloadRequest index sub_index
              (.expedited true [a, b, c, e])).as_bytes
            = some [0x23, index % 256, index / 256 % 256, sub_index, a, b, c, e] := by
          simp only [SdoCommand.as_bytes, SdoTransferType.as_first_byte_fragment,
            SdoTransferType.as_data_bytes, List.length_cons, List.length_nil]
          rfl
        rw [henc] at hb
        injection hb with hb
        subst hb
        rw [new_with_bytes_of_idreq n 0x23 _ _ _ _ _ _ _ _ (by decide)
          (tt_decode_expedited_take _ _ _ _ _ _ _ _ 0 (by decide) (by decide)
            (by decide) (by decide))]
        rw [leU16_le_bytes index hi]
        rfl

/-- Round trip for InitiateUploadResponse under a round-trippable transfer
type, in the server direction. -/
theorem sdo_iuresp_roundtrip (n : NodeID) (index sub_index : Nat)
    (tt : SdoTransferType) (bs : List Nat) (hi : index < 65536)
    (htt : ttRoundTrippable tt = true)
    (hb : (SdoCommand.initiateUploadResponse index sub_index tt).as_bytes = some bs) :
    SdoFrame.new_with_bytes .tx n bs
      = .ok ⟨.tx, n, .initiateUploadResponse index sub_index tt⟩ := by
  cases tt with
  | normal size =>
    simp only [ttRoundTrippable, decide_eq_true_eq] at htt
    have henc : (SdoCommand.initiateUploadResponse index sub_index (.normal size)).as_bytes
        = some [0x41, index % 256, index / 256 % 256, sub_index, size % 256,
            size / 256 % 256, size / 65536 % 256, size / 16777216 % 256] := by
      simp only [SdoCommand.as_bytes, SdoTransferType.as_first_byte_fragment,
        SdoTransferType.as_data_bytes, List.length_cons, List.length_nil]
      rfl
    rw [henc] at hb
    injection hb with hb
    subst hb
    rw [new_with_bytes_of_iuresp n 0x41 _ _ _ _ _ _ _ _ (by decide)
      (tt_decode_normal _ _ _ _ _ _ _ _ (by decide) (by decide))]
    rw [leU16_le_bytes index hi, leU32_le_bytes size htt]
  | expedited sized data =>
    cases sized with
    | false =>
      simp only [ttRoundTrippable, decide_eq_true_eq] at htt
      rcases data with _ | ⟨a, _ | ⟨b, _ | ⟨c, _ | ⟨e, _ | ⟨f, rest⟩⟩⟩⟩⟩ <;>
        simp only [List.length_cons, List.length_nil] at htt <;> try omega
      have henc : (SdoCommand.initiateUploadResponse index sub_index
            (.expedited false [a, b, c, e])).as_bytes
          = some [0x42, index % 256, index / 256 % 256, sub_index, a, b, c, e] := by
        simp only [SdoCommand.as_bytes, SdoTransferType.as_first_byte_fragment,
          SdoTransferType.as_data_bytes, List.length_cons, List.length_nil]
        rfl
      rw [henc] at hb
      injection hb with hb
      subst hb
      rw [new_with_bytes_of_iuresp n 0x42 _ _ _ _ _ _ _ _ (by decide)
        (tt_decode_expedited_unsized _ _ _ _ _ _ _ _ (by decide) (by decide))]
      rw [leU16_le_bytes index hi]
    | true =>
      simp only [ttRoundTrippable, decide_eq_true_eq, Bool.and_eq_true] at htt
      rcases data with _ | ⟨a, _ | ⟨b, _ | ⟨c, _ | ⟨e, _ | ⟨f, rest⟩⟩⟩⟩⟩ <;>
        simp only [List.length_cons, List.length_nil] at htt <;> try omega
      · have henc : (SdoCommand.initiateUploadResponse index sub_index
              (.expedited true [a])).as_bytes
            = some [0x4F, index % 256, index / 256 % 256, sub_index, a, 0, 0, 0] := by
          simp only [SdoCommand.as_bytes, SdoTransferType.as_first_byte_fragment,
            SdoTransferType.as_data_bytes, List.length_cons, List.length_nil]
          rfl
        rw [henc] at hb
        injection hb with hb
        subst hb
        rw [new_with_bytes_of_iuresp n 0x4F _ _ _ _ _ _ _ _ (by decide)
          (tt_decode_expedited_take _ _ _ _ _ _ _ _ 3 (by decide) (by decide)
            (by decide) (by decide))]
        rw [leU16_le_bytes index hi]
        rfl
      · have henc : (SdoCommand.initiateUploadResponse index sub_index
              (.expedited true [a, b])).as_bytes
            = some [0x4B, index % 256, index / 256 % 256, sub_index, a, b, 0, 0] := by
          simp only [SdoCommand.as_bytes, SdoTransferType.as_first_byte_fragment,
            SdoTransferType.as_data_bytes, List.length_cons, List.length_nil]
          rfl
        rw [henc] at hb
        injection hb with hb
        subst hb
        rw [new_with_bytes_of_iuresp n 0x4B _ _ _ _ _ _ _ _ (by decide)
          (tt_decode_expedited_take _ _ _ _ _ _ _ _ 2 (by decide) (by decide)
            (by decide) (by decide))]
        rw [leU16_le_bytes index hi]
        rfl
      · have henc : (SdoCommand.initiateUploadResponse index sub_index
              (.expedited true [a, b, c])).as_bytes
            = some [0x47, index % 256, index / 256 % 256, sub_index, a, b, c, 0] := by
          simp only [SdoCommand.as_bytes, SdoTransferType.as_first_byte_fragment,
            SdoTransferType.as_data_bytes, List.length_cons, List.length_nil]
          rfl
        rw [henc] at hb
        injection hb with hb
        subst hb
        rw [new_with_bytes_of_iuresp n 0x47 _ _ _ _ _ _ _ _ (by decide)
          (tt_decode_expedited_take _ _ _ _ _ _ _ _ 1 (by decide) (by decide)
            (by decide) (by decide))]
        rw [leU16_le_bytes index hi]
        rfl
      · have henc : (SdoCommand.initiateUploadResponse index sub_index
              (.expedited true [a, b, c, e])).as_bytes
            = some [0x43, index % 256, index / 256 % 256, sub_index, a, b, c, e] := by
          simp only [SdoCommand.as_bytes, SdoTransferType.as_first_byte_fragment,
            SdoTransferType.as_data_bytes, List.length_cons, List.length_nil]
          rfl
        rw [henc] at hb
        injection hb with hb
        subst hb
        rw [new_with_bytes_of_iuresp n 0x43 _ _ _ _ _ _ _ _ (by decide)
          (tt_decode_expedited_take _ _ _ _ _ _ _ _ 0 (by decide) (by decide)
            (by decide) (by decide))]
        rw [leU16_le_bytes index hi]
        rfl

/-- C2 counterexample: three constructible SdoCommand values that do not
survive decode(encode(v)): a DownloadSegmentResponse encodes to an 8-byte
frame that decodes to Err(NotImplemented); an unsized Expedited download
with 1 data byte decodes back with the data zero-padded to 4 bytes; a sized
Expedited download with 0 data bytes decodes back with 4 data bytes. -/
theorem c2_sdo_roundtrip_counterexample :
    ((SdoCommand.downloadSegmentResponse ⟨false⟩).as_bytes
        = some [0x20, 0, 0, 0, 0, 0, 0, 0]
      ∧ SdoFrame.new_with_bytes .tx ⟨1⟩ [0x20, 0, 0, 0, 0, 0, 0, 0]
        = .error .notImplemented)
    ∧ ((SdoCommand.initiateDownloadRequest 0 0 (.expedited false [0xFF])).as_bytes
        = some [0x22, 0, 0, 0, 0xFF, 0, 0, 0]
      ∧ SdoFrame.new_with_bytes .rx ⟨1⟩ [0x22, 0, 0, 0, 0xFF, 0, 0, 0]
        = .ok ⟨.rx, ⟨1⟩, .initiateDownloadRequest 0 0 (.expedited false [0xFF, 0, 0, 0])⟩
      ∧ SdoTransferType.expedited false [0xFF, 0, 0, 0] ≠ .expedited false [0xFF])
    ∧ ((SdoCommand.initiateDownloadRequest 0 0 (.expedited true [])).as_bytes
        = some [0x23, 0, 0, 0, 0, 0, 0, 0]
      ∧ SdoFrame.new_with_bytes .rx ⟨1⟩ [0x23, 0, 0, 0, 0, 0, 0, 0]
        = .ok ⟨.rx, ⟨1⟩, .initiateDownloadRequest 0 0 (.expedited true [0, 0, 0, 0])⟩
      ∧ SdoTransferType.expedited true [0, 0, 0, 0] ≠ .expedited true ([] : List Nat)) := by
  decide

/-- C2 (amended): decode(encode(v)) recovers the frame carrying v, with the
matching direction, for the commands the decoder implements: AbortTransfer
(either direction, index below 2^16 and abort code below 2^32),
InitiateUploadRequest (client direction), InitiateDownloadResponse (server
direction), and InitiateDownloadRequest/InitiateUploadResponse whose
transfer type is round-trippable (Normal size below 2^32, sized Expedited
with 1-4 data bytes, or unsized Expedited with exactly 4 data bytes).
Segment commands encode but decode to Err(NotImplemented), and unsized or
empty expedited payloads come back zero-padded (see the counterexample). -/
theorem c2_sdo_roundtrip :
    (∀ (d : Direction) (n : NodeID) (index sub_index abort_code : Nat) (bs : List Nat),
      index < 65536 → abort_code < 4294967296 →
      (SdoCommand.abortTransfer index sub_index abort_code).as_bytes = some bs →
      SdoFrame.new_with_bytes d n bs
        = .ok ⟨d, n, .abortTransfer index sub_index abort_code⟩)
    ∧ (∀ (n : NodeID) (index sub_index : Nat) (bs : List Nat), index < 65536 →
      (SdoCommand.initiateUploadRequest index sub_index).as_bytes = some bs →
      SdoFrame.new_with_bytes .rx n bs
        = .ok ⟨.rx, n, .initiateUploadRequest index sub_index⟩)
    ∧ (∀ (n : NodeID) (index sub_index : Nat) (bs : List Nat), index < 65536 →
      (SdoCommand.initiateDownloadResponse index sub_index).as_bytes = some bs →
      SdoFrame.new_with_bytes .tx n bs
        = .ok ⟨.tx, n, .initiateDownloadResponse index sub_index⟩)
    ∧ (∀ (n : NodeID) (index sub_index : Nat) (tt : SdoTransferType) (bs : List Nat),
      index < 65536 → ttRoundTrippable tt = true →
      (SdoCommand.initiateDownloadRequest index sub_index tt).as_bytes = some bs →
      SdoFrame.new_with_bytes .rx n bs
        = .ok ⟨.rx, n, .initiateDownloadRequest index sub_index tt⟩)
    ∧ (∀ (n : NodeID) (index sub_index : Nat) (tt : SdoTransferType) (bs : List Nat),
      index < 65536 → ttRoundTrippable tt = true →
      (SdoCommand.initiateUploadResponse index sub_index tt).as_bytes = some bs →
      SdoFrame.new_with_bytes .tx n bs
        = .ok ⟨.tx, n, .initiateUploadResponse index sub_index tt⟩) := by
  refine ⟨fun d n index sub_index abort_code bs hi hc hb => ?_,
    fun n index sub_index bs hi hb => ?_, fun n index sub_index bs hi hb => ?_,
    fun n index sub_index tt bs hi htt hb => sdo_idreq_roundtrip n index sub_index tt bs hi htt hb,
    fun n index sub_index tt bs hi htt hb => sdo_iuresp_roundtrip n index sub_index tt bs hi htt hb⟩
  · have henc : (SdoCommand.abortTransfer index sub_index abort_code).as_bytes
        = some [0x80, index % 256, index / 256 % 256, sub_index, abort_code % 256,
            abort_code / 256 % 256, abort_code / 65536 % 256, abort_code / 16777216 % 256] := rfl
    rw [henc] at hb
    injection hb with hb
    subst hb
    rw [new_with_bytes_of_abort d n 0x80 _ _ _ _ _ _ _ (by cases d <;> decide)]
    rw [leU16_le_bytes index hi, leU32_le_bytes abort_code hc]
  · have henc : (SdoCommand.initiateUploadRequest index sub_index).as_bytes
        = some [0x40, index % 256, index / 256 % 256, sub_index, 0, 0, 0, 0] := rfl
    rw [henc] at hb
    injection hb with hb
    subst hb
    rw [new_with_bytes_of_iur n 0x40 _ _ _ _ _ _ _ (by decide)]
    rw [leU16_le_bytes index hi]
  · have henc : (SdoCommand.initiateDownloadResponse index sub_index).as_bytes
        = some [0x60, index % 256, index / 256 % 256, sub_index, 0, 0, 0, 0] := rfl
    rw [henc] at hb
    injection hb with hb
    subst hb
    rw [new_with_bytes_of_idresp n 0x60 _ _ _ _ _ _ _ (by decide)]
    rw [leU16_le_bytes index hi]

/-- Witness for C2 on the concrete frames from the repository tests:
abort 0x1000/0/0x06010002 towards node 5, and the 2-byte expedited write
of [0xE8,0x03] to 0x1017:0 on node 2. -/
theorem c2_sdo_roundtrip_witness :
    SdoFrame.new_with_bytes .tx ⟨5⟩ [0x80, 0x00, 0x10, 0x00, 0x02, 0x00, 0x01, 0x06]
      = .ok ⟨.tx, ⟨5⟩, .abortTransfer 0x1000 0 0x06010002⟩
    ∧ SdoFrame.new_with_bytes .rx ⟨2⟩ [0x2B, 0x17, 0x10, 0x00, 0xE8, 0x03, 0x00, 0x00]
      = .ok ⟨.rx, ⟨2⟩, .initiateDownloadRequest 0x1017 0 (.expedited true [0xE8, 0x03])⟩ :=
  ⟨by
    have h := c2_sdo_roundtrip.1 .tx ⟨5⟩ 0x1000 0 0x06010002
      [0x80, 0x00, 0x10, 0x00, 0x02, 0x00, 0x01, 0x06] (by decide) (by decide) (by decide)
    simpa using h,
   by
    have h := c2_sdo_roundtrip.2.2.2.1 ⟨2⟩ 0x1017 0 (.expedited true [0xE8, 0x03])
      [0x2B, 0x17, 0x10, 0x00, 0xE8, 0x03, 0x00, 0x00] (by decide) (by decide) (by decide)
    simpa using h⟩
